import Mathlib

/-!
Verification of or-ctl-filter: a shallow embedding of the control-port
filter session (tor/session.go) and the SOCKS5 upstream dispatch engine
(proxy/socks.go), with the configuration predicates from config/config.go.

Strings are modelled as Lean `String` (a sequence of Unicode scalar
values, as a Go string holds under UTF-8); the Go helpers the code calls
(`strings.Split`, `bytes.TrimSpace` with the full `unicode.IsSpace` set,
`strconv.ParseInt(_, 10, 32)`, `strings.HasSuffix`) are reproduced
below. The `strings.ToUpper` the command dispatch applies is embedded
through `tokenUppercasesTo`, the comparison of an uppercased token with
an ASCII-uppercase command literal, which is exact for every input.
-/

namespace OrCtlFilter

/-- `unicode.IsSpace` as the Go unicode package implements it: the
ASCII spaces TAB LF VT FF CR SPACE, then NEL U+0085 and NBSP U+00A0
from the Latin-1 properties table, and the `White_Space` ranges above
Latin-1: OGHAM SPACE MARK U+1680, the U+2000 to U+200A spaces, LINE and
PARAGRAPH SEPARATOR U+2028/U+2029, NARROW NO-BREAK SPACE U+202F, MEDIUM
MATHEMATICAL SPACE U+205F and IDEOGRAPHIC SPACE U+3000. -/
def goIsSpace (c : Char) : Bool :=
  c = ' ' || c = '\t' || c = '\n' || c = '\x0b' || c = '\x0c' || c = '\r'
    || c.toNat = 0x85 || c.toNat = 0xA0 || c.toNat = 0x1680
    || (0x2000 ≤ c.toNat && c.toNat ≤ 0x200A)
    || c.toNat = 0x2028 || c.toNat = 0x2029
    || c.toNat = 0x202F || c.toNat = 0x205F || c.toNat = 0x3000

/-- `bytes.TrimSpace` / `strings.TrimSpace`: drop leading and trailing
`unicode.IsSpace` runes. -/
def trimSpace (s : String) : String :=
  String.mk (((s.toList.dropWhile goIsSpace).reverse.dropWhile goIsSpace).reverse)

/-- Field splitting on a single space over a character list, keeping
empty fields; the empty list yields one empty field. -/
def splitCharsOnSpace : List Char → List (List Char)
  | [] => [[]]
  | c :: rest =>
      let r := splitCharsOnSpace rest
      if c = ' ' then [] :: r
      else (c :: r.headD []) :: r.tail

/-- `strings.Split(s, " ")`: split around every single space, keeping
empty fields; on the empty string it yields one empty field. -/
def splitOnSpace (s : String) : List String :=
  (splitCharsOnSpace s.toList).map String.mk

/-- ASCII-only uppercasing. This is NOT the `strings.ToUpper` of the
source: Go applies the full Unicode simple case mapping, which also
sends non-ASCII letters such as U+017F (long s) to S. It is kept as the
reading named by the wording "ASCII-uppercased first token", to compare
with what the source does. -/
def toUpperAscii (s : String) : String :=
  String.mk (s.toList.map Char.toUpper)

/-- The comparison `strings.ToUpper tok == lit` of the source, for a
literal made of ASCII uppercase letters (every command name of
session.go is). Go uppercases rune by rune with the Unicode simple case
mapping; the code points that mapping sends into A to Z are exactly
each uppercase letter itself, its ASCII lowercase counterpart, and the
two non-ASCII ones, U+017F LATIN SMALL LETTER LONG S (to S) and U+0131
LATIN SMALL LETTER DOTLESS I (to I). The comparison therefore holds iff
the strings have equal rune length and each rune of `tok` maps to the
corresponding letter of `lit`. -/
def tokenUppercasesTo (tok lit : String) : Bool :=
  tok.toList.length = lit.toList.length &&
    (tok.toList.zip lit.toList).all fun p =>
      p.1 = p.2 ||
        (('A' ≤ p.2 && p.2 ≤ 'Z') &&
          (p.1.toNat = p.2.toNat + 32
            || (p.2 = 'S' && p.1 = 'ſ') || (p.2 = 'I' && p.1 = 'ı')))

/-- `strings.HasSuffix(s, suffix)`. -/
def hasSuffix (s suffix : String) : Bool :=
  List.isSuffixOf suffix.toList s.toList

/-- Success predicate of Go's `strconv.ParseInt(v, 10, 32)`: an optional
sign, then at least one decimal digit, and the value fits in a signed
32-bit integer (range errors make ParseInt return a non-nil error). -/
def goParseInt32Ok (s : String) : Bool :=
  let cs := s.toList
  let signAndDigits : Bool × List Char :=
    match cs with
    | '+' :: rest => (false, rest)
    | '-' :: rest => (true, rest)
    | rest => (false, rest)
  let neg := signAndDigits.1
  let ds := signAndDigits.2
  (!ds.isEmpty) && ds.all (fun c => '0' ≤ c && c ≤ '9') &&
    (let n := ds.foldl (fun acc c => acc * 10 + (c.toNat - 48)) 0
     if neg then n ≤ 2 ^ 31 else n ≤ 2 ^ 31 - 1)

/-- The token list of `session.appConnReadLine`: the raw line is
trimmed and split on single spaces. -/
def lineArgs (rawLine : String) : List String :=
  splitOnSpace (trimSpace rawLine)

/-- The re-trimmed first token of `session.appConnReadLine`, before the
`strings.ToUpper` that the command dispatch applies; the dispatch
compares its uppercased form against the command literals via
`tokenUppercasesTo`. -/
def lineTok (rawLine : String) : String :=
  trimSpace ((lineArgs rawLine).headD "")

/-- Tor configuration section consumed by the session code
(config.TorCfg). Only the fields the control/dispatch paths read. -/
structure TorCfg where
  enable : Bool
  deriving Repr, DecidableEq

/-- I2P configuration section (config.I2PCfg). `mgmtAddr`/`localAddr`
are the parsed management and local-server addresses; `mgmtHost` and
`localHost` are their host components as produced by
`net.SplitHostPort` inside `IsManagementHost`/`IsLocalHost`. -/
structure I2PCfg where
  enable : Bool
  enableManagement : Bool
  enableLocal : Bool
  mgmtAddr : String
  localAddr : String
  mgmtHost : String
  localHost : String
  deriving Repr, DecidableEq

/-- Top-level configuration (config.Config); `socksAddr` is the address
half of `Config.SOCKSNetAddr()`. -/
structure Config where
  socksAddr : String
  unsafeAllowDirect : Bool
  tor : TorCfg
  i2p : I2PCfg
  deriving Repr, DecidableEq

/-- `I2PCfg.IsManagementAddr`: true iff I2P is enabled and the address
equals the parsed management address. -/
def I2PCfg.isManagementAddr (c : I2PCfg) (addr : String) : Bool :=
  c.enable && c.mgmtAddr == addr

/-- `I2PCfg.IsLocalAddr`: true iff I2P is enabled and the address equals
the parsed local-server address. -/
def I2PCfg.isLocalAddr (c : I2PCfg) (addr : String) : Bool :=
  c.enable && c.localAddr == addr

/-- `I2PCfg.IsManagementHost`: true iff I2P is enabled and the string
equals the host component of the management address. -/
def I2PCfg.isManagementHost (c : I2PCfg) (s : String) : Bool :=
  c.enable && s == c.mgmtHost

/-- `I2PCfg.IsLocalHost`: true iff I2P is enabled and the string equals
the host component of the local-server address. -/
def I2PCfg.isLocalHost (c : I2PCfg) (s : String) : Bool :=
  c.enable && s == c.localHost

/-! ## Control-port session (tor/session.go) -/

/-- The session backend: either the real Tor backend, which holds the
upstream's cached Tor version string, or the stub backend, whose
`TorVersion` returns the fixed placeholder (backend_stub.go). -/
inductive Backend
  | realTor (torVersion : String)
  | stub
  deriving Repr, DecidableEq

/-- `sessionBackend.TorVersion` for each backend variant. -/
def Backend.torVersion : Backend → String
  | .realTor v => v
  | .stub => "0.2.7.1-alpha"

/-- The observable effect of handling one client line: the reply strings
written to the client connection and the raw bytes written to the
upstream Tor control connection, in order. -/
structure LineEffect where
  clientWrites : List String
  upstreamWrites : List String
  deriving Repr, DecidableEq

/-- `session.sendErrUnexpectedArgCount`: note the source compares
`expected > actual` before choosing the "Too many arguments" string. -/
def sendErrUnexpectedArgCount (cmd : String) (expected actual : Nat) : String :=
  if expected > actual then
    "512 Too many arguments to " ++ cmd ++ "\r\n"
  else
    "512 Missing argument to " ++ cmd ++ "\r\n"

/-- `session.onCmdProtocolInfo` on the write-success path: scan the
non-first tokens in order; on the first token that fails
`strconv.ParseInt(v, 10, 32)`, write the 513 reply and stop; otherwise
write the synthesized PROTOCOLINFO response. Nothing goes upstream. -/
def onCmdProtocolInfo (torVersion : String) (splitCmd : List String) : LineEffect :=
  match (splitCmd.drop 1).find? (fun v => !goParseInt32Ok v) with
  | some v =>
      { clientWrites := ["513 No such version \"" ++ v ++ "\"\r\n"]
        upstreamWrites := [] }
  | none =>
      { clientWrites :=
          ["250-PROTOCOLINFO 1\r\n250-AUTH METHODS=NULL,HASHEDPASSWORD\r\n250-VERSION Tor=\""
            ++ torVersion ++ "\"\r\n250 OK\r\n"]
        upstreamWrites := [] }

/-- `session.onCmdGetInfo`: exactly two tokens required; the key must be
the literal `net/listeners/socks`, which is answered with a synthesized
reply built from the configured SOCKS listen address. Nothing is ever
forwarded upstream. -/
def onCmdGetInfo (cfg : Config) (splitCmd : List String) : LineEffect :=
  if splitCmd.length ≠ 2 then
    { clientWrites := [sendErrUnexpectedArgCount "GETINFO" 2 splitCmd.length]
      upstreamWrites := [] }
  else if splitCmd.getD 1 "" ≠ "net/listeners/socks" then
    { clientWrites := ["552 Unrecognized key \"" ++ splitCmd.getD 1 "" ++ "\"\r\n"]
      upstreamWrites := [] }
  else
    { clientWrites :=
        ["250-net/listeners/socks=\"" ++ cfg.socksAddr ++ "\"\r\n250 OK\r\n"]
      upstreamWrites := [] }

/-- `session.onCmdSignal`: exactly two tokens required; the name must be
the literal `NEWNYM`, which is handed to `backend.OnNewnym(raw)` — the
real backend forwards the raw line upstream, the stub synthesizes
`250 OK` locally. -/
def onCmdSignal (backend : Backend) (splitCmd : List String) (raw : String) : LineEffect :=
  if splitCmd.length ≠ 2 then
    { clientWrites := [sendErrUnexpectedArgCount "SIGNAL" 2 splitCmd.length]
      upstreamWrites := [] }
  else if splitCmd.getD 1 "" ≠ "NEWNYM" then
    { clientWrites := ["552 Unrecognized signal code \"" ++ splitCmd.getD 1 "" ++ "\"\r\n"]
      upstreamWrites := [] }
  else
    match backend with
    | .realTor _ => { clientWrites := [], upstreamWrites := [raw] }
    | .stub => { clientWrites := ["250 OK\r\n"], upstreamWrites := [] }

/-- One iteration of `session.proxyAndFilerApp` (post-auth client
filter) on a raw client line, on the write-success path. -/
def processPostAuthLine (cfg : Config) (backend : Backend) (raw : String) : LineEffect :=
  let tok := lineTok raw
  let splitCmd := lineArgs raw
  if tokenUppercasesTo tok "PROTOCOLINFO" then onCmdProtocolInfo backend.torVersion splitCmd
  else if tokenUppercasesTo tok "GETINFO" then onCmdGetInfo cfg splitCmd
  else if tokenUppercasesTo tok "SIGNAL" then onCmdSignal backend splitCmd raw
  else { clientWrites := ["510 Unrecognized command\r\n"], upstreamWrites := [] }

/-- Outcome of the pre-auth loop on a finite list of client lines:
either the client authenticated (remaining unread lines attached), the
loop returned with an error (session abort; remaining unread lines
attached), or the input ran out while still pre-auth. -/
inductive PreAuthResult
  | authenticated (remaining : List String)
  | aborted (remaining : List String)
  | outOfInput
  deriving Repr, DecidableEq

/-- `session.processPreAuth` on the write-success path, over a list of
raw client lines, threading the `sentProtocolInfo` flag. Returns the
client writes in order, paired with the loop outcome. -/
def processPreAuth (torVersion : String) :
    List String → Bool → List String × PreAuthResult
  | [], _ => ([], .outOfInput)
  | raw :: rest, sentProtocolInfo =>
      let tok := lineTok raw
      let splitCmd := lineArgs raw
      if tokenUppercasesTo tok "PROTOCOLINFO" then
        if sentProtocolInfo then
          (["514 Authentication required\r\n"], .aborted rest)
        else
          let eff := onCmdProtocolInfo torVersion splitCmd
          let next := processPreAuth torVersion rest true
          (eff.clientWrites ++ next.1, next.2)
      else if tokenUppercasesTo tok "AUTHENTICATE" then
        (["250 OK\r\n"], .authenticated rest)
      else if tokenUppercasesTo tok "AUTHCHALLENGE" then
        (["510 Unrecognized command\r\n"], .aborted rest)
      else if tokenUppercasesTo tok "QUIT" then
        ([], .aborted rest)
      else
        (["514 Authentication required\r\n"], .aborted rest)

/-! ## SOCKS5 dispatch engine (proxy/socks.go)

The `socks5` helper package (codec, reply codes, address type) is part
of this repository but its source is not included here; the pieces the
dispatcher consumes are modelled from the spec. -/

/-- Modelled from the spec: SOCKS5 reply codes used by the dispatcher
(RFC 1928 values, §4.6): succeeded 00, general failure 01, connection
not allowed 02, network unreachable 03, host unreachable 04, connection
refused 05, command not supported 07. -/
inductive ReplyCode
  | succeeded
  | generalFailure
  | connectionNotAllowed
  | networkUnreachable
  | hostUnreachable
  | connectionRefused
  | commandNotSupported
  deriving Repr, DecidableEq

/-- Modelled from the spec: the wire byte of each SOCKS5 reply code. -/
def ReplyCode.toByte : ReplyCode → Nat
  | .succeeded => 0x00
  | .generalFailure => 0x01
  | .connectionNotAllowed => 0x02
  | .networkUnreachable => 0x03
  | .hostUnreachable => 0x04
  | .connectionRefused => 0x05
  | .commandNotSupported => 0x07

/-- Modelled from the spec: the SOCKS commands the codec accepts
(Connect 01, Tor's Resolve F0 and ResolvePTR F1); anything else is
rejected during the handshake before a request is built. -/
inductive SocksCmd
  | connect
  | torResolve
  | torResolvePTR
  deriving Repr, DecidableEq

/-- Modelled from the spec: a parsed SOCKS5 target address. `host` and
`port` are the components returned by `Address.HostPort()`; `str` is the
canonical `host:port` form returned by `Address.String()`. -/
structure Address where
  host : String
  port : String
  str : String
  deriving Repr, DecidableEq

/-- Modelled from the spec: the optional RFC 1929 credentials, carried
as isolation tokens (never authenticated). -/
structure SocksAuth where
  uname : Option String
  passwd : Option String
  deriving Repr, DecidableEq

/-- Modelled from the spec: a validated SOCKS request as produced by
`socks5.Handshake`. -/
structure SocksRequest where
  cmd : SocksCmd
  addr : Address
  auth : SocksAuth
  deriving Repr, DecidableEq

/-- The `upstreamType` classification of proxy/socks.go. -/
inductive UpstreamType
  | tor
  | i2p
  | i2pConsole
  | i2pLocal
  | internet
  deriving Repr, DecidableEq

/-- The upstream-opening actions the dispatcher can take after a request
survives classification and policy: `dispatchTorSOCKS`,
`dispatchDirect`, `dispatchI2PHTTP`, `dispatchI2PHTTPS`, or (Tor
disabled with `UnsafeAllowDirect`) a direct DNS forward/PTR lookup. -/
inductive DispatchAction
  | torSOCKS
  | direct
  | i2pHTTP
  | i2pHTTPS
  | resolveDirect
  | resolvePTRDirect
  deriving Repr, DecidableEq

/-- First stage of `session.pickUpstreamAndDispatch`: classify the
target by host suffix and the two I2P address predicates, in the
source's order. -/
def classifyTarget (cfg : Config) (addr : Address) : UpstreamType :=
  if hasSuffix addr.host ".onion" then .tor
  else if hasSuffix addr.host ".i2p" then .i2p
  else if cfg.i2p.isManagementAddr addr.str then .i2pConsole
  else if cfg.i2p.isLocalAddr addr.str then .i2pLocal
  else .internet

/-- Second stage of `session.pickUpstreamAndDispatch`: the isolation
checks. Console/local targets require both auth fields and a username
matching the respective configured host, else reply 02 and stop; for
other targets with both auth fields present, a `.onion` username forces
an I2P-classified request to Tor and a `.i2p` username forces a
Tor-classified request to I2P. -/
def applyIsolation (cfg : Config) (req : SocksRequest) (upstream : UpstreamType) :
    Except ReplyCode UpstreamType :=
  if upstream = .i2pConsole ∨ upstream = .i2pLocal then
    match req.auth.uname, req.auth.passwd with
    | some un, some _ =>
        if upstream = .i2pConsole ∧ ¬cfg.i2p.isManagementHost un then
          .error .connectionNotAllowed
        else if upstream = .i2pLocal ∧ ¬cfg.i2p.isLocalHost un then
          .error .connectionNotAllowed
        else
          .ok upstream
    | _, _ => .error .connectionNotAllowed
  else
    match req.auth.uname, req.auth.passwd with
    | some un, some _ =>
        .ok (match upstream with
          | .i2p => if hasSuffix un ".onion" then .tor else .i2p
          | .tor => if hasSuffix un ".i2p" then .i2p else .tor
          | u => u)
    | _, _ => .ok upstream

/-- Final stage of `session.pickUpstreamAndDispatch`: enable-flag policy
and the choice of upstream-opening action. A `.refuse` models exactly
one `s.req.Reply(...)` call followed by an error return with no upstream
dial; a `.dispatch` models reaching one of the dispatch helpers. -/
def dispatchUpstream (cfg : Config) (port : String) (upstream : UpstreamType) :
    List ReplyCode × Option DispatchAction :=
  match upstream with
  | .tor =>
      if ¬cfg.tor.enable then ([.networkUnreachable], none)
      else ([], some .torSOCKS)
  | .i2p | .i2pConsole | .i2pLocal =>
      if ¬cfg.i2p.enable then ([.networkUnreachable], none)
      else if upstream = .i2pConsole then
        if ¬cfg.i2p.enableManagement then ([.connectionNotAllowed], none)
        else ([], some .direct)
      else if upstream = .i2pLocal then
        if ¬cfg.i2p.enableLocal then ([.connectionNotAllowed], none)
        else ([], some .direct)
      else if port = "80" then ([], some .i2pHTTP)
      else ([], some .i2pHTTPS)
  | .internet =>
      if cfg.tor.enable then ([], some .torSOCKS)
      else if cfg.unsafeAllowDirect then ([], some .direct)
      else ([.connectionNotAllowed], none)

/-- `session.pickUpstreamAndDispatch` up to the point where an upstream
connection would be opened: the replies sent so far, and the upstream
action about to be taken (`none`: the request was refused and the
function returned without dialing). -/
def pickUpstreamAndDispatch (cfg : Config) (req : SocksRequest) :
    List ReplyCode × Option DispatchAction :=
  match applyIsolation cfg req (classifyTarget cfg req.addr) with
  | .error r => ([r], none)
  | .ok u => dispatchUpstream cfg req.addr.port u

/-- `session.sessionWorker` up to the point where an upstream connection
would be opened: RESOLVE/RESOLVE_PTR are redispatched via Tor when it is
enabled, served directly when `UnsafeAllowDirect` is set, and otherwise
refused with reply 07; CONNECT goes through
`pickUpstreamAndDispatch`. -/
def sessionDecision (cfg : Config) (req : SocksRequest) :
    List ReplyCode × Option DispatchAction :=
  match req.cmd with
  | .torResolve | .torResolvePTR =>
      if ¬cfg.tor.enable then
        if cfg.unsafeAllowDirect then
          if req.cmd = .torResolve then ([], some .resolveDirect)
          else ([], some .resolvePTRDirect)
        else ([.commandNotSupported], none)
      else ([], some .torSOCKS)
  | .connect => pickUpstreamAndDispatch cfg req

/-! ## Theorems -/

/-- A sample validated configuration, used by the concrete witness
instances below. -/
def cfgW : Config :=
  { socksAddr := "127.0.0.1:9150"
    unsafeAllowDirect := false
    tor := { enable := true }
    i2p := { enable := true, enableManagement := true, enableLocal := true
             mgmtAddr := "127.0.0.1:7657", localAddr := "127.0.0.1:7658"
             mgmtHost := "127.0.0.1", localHost := "127.0.0.1" } }

/-- A token uppercases to a literal only when their rune lengths
agree. -/
theorem tokenUppercasesTo_len {tok lit : String}
    (h : tokenUppercasesTo tok lit = true) :
    tok.toList.length = lit.toList.length := by
  unfold tokenUppercasesTo at h
  simp only [Bool.and_eq_true, decide_eq_true_eq] at h
  exact h.1

/-- A token that uppercases to one literal cannot uppercase to a
literal of another rune length. -/
theorem tokenUppercasesTo_ne {tok l1 l2 : String}
    (h : tokenUppercasesTo tok l1 = true)
    (hlen : l1.toList.length ≠ l2.toList.length) :
    tokenUppercasesTo tok l2 = false := by
  cases hq : tokenUppercasesTo tok l2
  · rfl
  · exact absurd ((tokenUppercasesTo_len h).symm.trans (tokenUppercasesTo_len hq)) hlen

/-- C1 counterexample: on the line `ſignal NEWNYM`, whose
ASCII-uppercased first token `ſIGNAL` is none of PROTOCOLINFO, GETINFO
or SIGNAL, the session does not write a 5xx reply and does not leave the
upstream untouched: `strings.ToUpper` maps U+017F (long s) to S, the
command is recognized as SIGNAL with argument NEWNYM, and the raw line
is written verbatim to the upstream control connection (real backend)
or acknowledged with `250 OK` (stub backend). -/
theorem postauth_ascii_uppercase_refuted :
    toUpperAscii (lineTok "ſignal NEWNYM\r\n") = "ſIGNAL"
    ∧ ("ſIGNAL" : String) ≠ "PROTOCOLINFO"
    ∧ ("ſIGNAL" : String) ≠ "GETINFO"
    ∧ ("ſIGNAL" : String) ≠ "SIGNAL"
    ∧ processPostAuthLine cfgW (Backend.realTor "0.4.8.9") "ſignal NEWNYM\r\n" =
        { clientWrites := [], upstreamWrites := ["ſignal NEWNYM\r\n"] }
    ∧ processPostAuthLine cfgW Backend.stub "ſignal NEWNYM\r\n" =
        { clientWrites := ["250 OK\r\n"], upstreamWrites := [] } :=
  ⟨rfl, by decide, by decide, by decide, rfl, rfl⟩

/-- C1 (amended): for every post-auth client line whose first token
uppercased by `strings.ToUpper` (the Unicode simple case mapping, under
which e.g. `ſignal` counts as SIGNAL) matches none of PROTOCOLINFO,
GETINFO or SIGNAL, the session writes exactly the
`510 Unrecognized command` reply; for every GETINFO line with exactly
two tokens whose key is not the literal `net/listeners/socks` it writes
exactly the 552 unrecognized-key reply; for every SIGNAL line with
exactly two tokens whose name is not the literal `NEWNYM` it writes
exactly the 552 unrecognized-signal reply; in all three cases nothing
is written to the upstream control connection. -/
theorem postauth_default_deny_folded (cfg : Config) (backend : Backend) (raw : String) :
    (tokenUppercasesTo (lineTok raw) "PROTOCOLINFO" = false →
     tokenUppercasesTo (lineTok raw) "GETINFO" = false →
     tokenUppercasesTo (lineTok raw) "SIGNAL" = false →
      processPostAuthLine cfg backend raw =
        { clientWrites := ["510 Unrecognized command\r\n"], upstreamWrites := [] })
    ∧ (tokenUppercasesTo (lineTok raw) "GETINFO" = true → (lineArgs raw).length = 2 →
        (lineArgs raw).getD 1 "" ≠ "net/listeners/socks" →
        processPostAuthLine cfg backend raw =
          { clientWrites := ["552 Unrecognized key \"" ++ (lineArgs raw).getD 1 "" ++ "\"\r\n"]
            upstreamWrites := [] })
    ∧ (tokenUppercasesTo (lineTok raw) "SIGNAL" = true → (lineArgs raw).length = 2 →
        (lineArgs raw).getD 1 "" ≠ "NEWNYM" →
        processPostAuthLine cfg backend raw =
          { clientWrites :=
              ["552 Unrecognized signal code \"" ++ (lineArgs raw).getD 1 "" ++ "\"\r\n"]
            upstreamWrites := [] }) := by
  refine ⟨?_, ?_, ?_⟩
  · intro h1 h2 h3
    simp only [processPostAuthLine]
    rw [h1, h2, h3]
    rfl
  · intro h hlen hkey
    have hp : tokenUppercasesTo (lineTok raw) "PROTOCOLINFO" = false :=
      tokenUppercasesTo_ne h (by decide)
    simp only [processPostAuthLine]
    rw [hp, if_neg (by decide : ¬(false = true)), h, if_pos (rfl : true = true)]
    unfold onCmdGetInfo
    rw [if_neg (not_not_intro hlen), if_pos hkey]
  · intro h hlen hname
    have hp : tokenUppercasesTo (lineTok raw) "PROTOCOLINFO" = false :=
      tokenUppercasesTo_ne h (by decide)
    have hg : tokenUppercasesTo (lineTok raw) "GETINFO" = false :=
      tokenUppercasesTo_ne h (by decide)
    simp only [processPostAuthLine]
    rw [hp, if_neg (by decide : ¬(false = true)), hg,
      if_neg (by decide : ¬(false = true)), h, if_pos (rfl : true = true)]
    unfold onCmdSignal
    rw [if_neg (not_not_intro hlen), if_pos hname]

/-- Witness for `postauth_default_deny_folded`: an unknown command, a
lowercase `getinfo` with an unknown key, and an unknown SIGNAL name each
get their 5xx reply and send nothing upstream. -/
theorem postauth_default_deny_folded_witness :
    processPostAuthLine cfgW Backend.stub "EXTENDCIRCUIT 0\r\n" =
      { clientWrites := ["510 Unrecognized command\r\n"], upstreamWrites := [] }
    ∧ processPostAuthLine cfgW Backend.stub "getinfo version\r\n" =
      { clientWrites := ["552 Unrecognized key \"version\"\r\n"], upstreamWrites := [] }
    ∧ processPostAuthLine cfgW Backend.stub "SIGNAL DUMP\r\n" =
      { clientWrites := ["552 Unrecognized signal code \"DUMP\"\r\n"], upstreamWrites := [] } :=
  ⟨(postauth_default_deny_folded cfgW Backend.stub "EXTENDCIRCUIT 0\r\n").1
      (by decide) (by decide) (by decide),
   (postauth_default_deny_folded cfgW Backend.stub "getinfo version\r\n").2.1
      (by decide) (by decide) (by decide),
   (postauth_default_deny_folded cfgW Backend.stub "SIGNAL DUMP\r\n").2.2
      (by decide) (by decide) (by decide)⟩

/-- C5: a post-auth GETINFO with exactly two tokens whose key is the
literal `net/listeners/socks` gets the synthesized
`250-net/listeners/socks="<socks-addr>"` reply followed by `250 OK`,
built from the configured SOCKS listen address, with nothing forwarded
upstream; any other key gets `552 Unrecognized key "<key>"`. -/
theorem getinfo_spoofs_socks_listener (cfg : Config) (backend : Backend) (raw : String)
    (hc : tokenUppercasesTo (lineTok raw) "GETINFO" = true)
    (hlen : (lineArgs raw).length = 2) :
    ((lineArgs raw).getD 1 "" = "net/listeners/socks" →
      processPostAuthLine cfg backend raw =
        { clientWrites :=
            ["250-net/listeners/socks=\"" ++ cfg.socksAddr ++ "\"\r\n250 OK\r\n"]
          upstreamWrites := [] })
    ∧ ((lineArgs raw).getD 1 "" ≠ "net/listeners/socks" →
      processPostAuthLine cfg backend raw =
        { clientWrites := ["552 Unrecognized key \"" ++ (lineArgs raw).getD 1 "" ++ "\"\r\n"]
          upstreamWrites := [] }) := by
  have hp : tokenUppercasesTo (lineTok raw) "PROTOCOLINFO" = false :=
    tokenUppercasesTo_ne hc (by decide)
  constructor
  · intro hkey
    simp only [processPostAuthLine]
    rw [hp, if_neg (by decide : ¬(false = true)), hc, if_pos (rfl : true = true)]
    unfold onCmdGetInfo
    rw [if_neg (not_not_intro hlen), if_neg (not_not_intro hkey)]
  · intro hkey
    simp only [processPostAuthLine]
    rw [hp, if_neg (by decide : ¬(false = true)), hc, if_pos (rfl : true = true)]
    unfold onCmdGetInfo
    rw [if_neg (not_not_intro hlen), if_pos hkey]

/-- Witness for `getinfo_spoofs_socks_listener`: the allowed key is
answered with the synthesized reply carrying the configured SOCKS
address, and an unknown key with the 552 reply. -/
theorem getinfo_spoofs_socks_listener_witness :
    processPostAuthLine cfgW Backend.stub "GETINFO net/listeners/socks\u00A0\r\n" =
      { clientWrites := ["250-net/listeners/socks=\"127.0.0.1:9150\"\r\n250 OK\r\n"]
        upstreamWrites := [] }
    ∧ processPostAuthLine cfgW Backend.stub "GETINFO circuit-status\r\n" =
      { clientWrites := ["552 Unrecognized key \"circuit-status\"\r\n"]
        upstreamWrites := [] } :=
  ⟨(getinfo_spoofs_socks_listener cfgW Backend.stub
      "GETINFO net/listeners/socks\u00A0\r\n" (by decide) (by decide)).1 (by decide),
   (getinfo_spoofs_socks_listener cfgW Backend.stub "GETINFO circuit-status\r\n"
      (by decide) (by decide)).2 (by decide)⟩

/-- C6 (code bug): the source of `sendErrUnexpectedArgCount` tests
`expected > actual` before emitting the "Too many arguments" string, so
the two 512 messages are swapped: a GETINFO/SIGNAL line with more than
two tokens is answered `512 Missing argument to <cmd>` and a line with
fewer than two tokens is answered `512 Too many arguments to <cmd>` —
the opposite of what each message says. -/
theorem argcount_messages_swapped :
    processPostAuthLine cfgW Backend.stub "GETINFO a b\r\n" =
      { clientWrites := ["512 Missing argument to GETINFO\r\n"], upstreamWrites := [] }
    ∧ processPostAuthLine cfgW Backend.stub "GETINFO\r\n" =
      { clientWrites := ["512 Too many arguments to GETINFO\r\n"], upstreamWrites := [] }
    ∧ processPostAuthLine cfgW Backend.stub "SIGNAL a b\r\n" =
      { clientWrites := ["512 Missing argument to SIGNAL\r\n"], upstreamWrites := [] }
    ∧ processPostAuthLine cfgW Backend.stub "SIGNAL\r\n" =
      { clientWrites := ["512 Too many arguments to SIGNAL\r\n"], upstreamWrites := [] } :=
  ⟨rfl, rfl, rfl, rfl⟩

/-- C4 counterexample: after a PROTOCOLINFO line with the invalid
version token `1z`, the pre-auth loop replies 513 but then goes on to
process the next client line — the AUTHENTICATE succeeds and the
session reaches the authenticated state, so the session is not
aborted. -/
theorem protocolinfo_bad_version_not_aborted :
    processPreAuth "0.2.7.1-alpha" ["PROTOCOLINFO 1z\r\n", "AUTHENTICATE\r\n"] false =
      (["513 No such version \"1z\"\r\n", "250 OK\r\n"], .authenticated []) :=
  rfl

/-- C4 (amended): a PROTOCOLINFO line containing a non-first token that
does not parse as a signed 32-bit integer is answered
`513 No such version "<tok>"` for the first such token, with nothing
written upstream — but the session is not aborted: post-auth the
handler returns a plain reply effect, and pre-auth the loop continues
with the remaining client lines (only a failed client write ends the
session). -/
theorem protocolinfo_bad_version_reply (cfg : Config) (backend : Backend)
    (torVersion : String) (raw : String) (rest : List String) (tok : String)
    (hc : tokenUppercasesTo (lineTok raw) "PROTOCOLINFO" = true)
    (hb : ((lineArgs raw).drop 1).find? (fun v => !goParseInt32Ok v) = some tok) :
    processPostAuthLine cfg backend raw =
      { clientWrites := ["513 No such version \"" ++ tok ++ "\"\r\n"], upstreamWrites := [] }
    ∧ processPreAuth torVersion (raw :: rest) false =
      (("513 No such version \"" ++ tok ++ "\"\r\n") :: (processPreAuth torVersion rest true).1,
        (processPreAuth torVersion rest true).2) := by
  constructor
  · simp only [processPostAuthLine]
    rw [hc, if_pos (rfl : true = true)]
    unfold onCmdProtocolInfo
    rw [hb]
  · simp only [processPreAuth]
    rw [hc, if_pos (rfl : true = true), if_neg (by decide : ¬(false = true))]
    unfold onCmdProtocolInfo
    rw [hb]
    simp

/-- Witness for `protocolinfo_bad_version_reply` at the concrete line
`PROTOCOLINFO 1z` followed by an AUTHENTICATE line. -/
theorem protocolinfo_bad_version_reply_witness :
    processPostAuthLine cfgW Backend.stub "PROTOCOLINFO 1z\r\n" =
      { clientWrites := ["513 No such version \"1z\"\r\n"], upstreamWrites := [] }
    ∧ processPreAuth "0.2.7.1-alpha" ["PROTOCOLINFO 1z\r\n", "AUTHENTICATE\r\n"] false =
      ("513 No such version \"1z\"\r\n"
          :: (processPreAuth "0.2.7.1-alpha" ["AUTHENTICATE\r\n"] true).1,
        (processPreAuth "0.2.7.1-alpha" ["AUTHENTICATE\r\n"] true).2) :=
  protocolinfo_bad_version_reply cfgW Backend.stub "0.2.7.1-alpha" "PROTOCOLINFO 1z\r\n"
    ["AUTHENTICATE\r\n"] "1z" (by decide) (by decide)

/-- Every error the isolation stage can produce is the
connection-not-allowed reply (code 02). -/
theorem applyIsolation_error_code (cfg : Config) (req : SocksRequest)
    (u : UpstreamType) (r : ReplyCode)
    (h : applyIsolation cfg req u = .error r) : r = .connectionNotAllowed := by
  unfold applyIsolation at h
  repeat' split at h
  all_goals
    first
      | exact (Except.error.inj h).symm
      | exact absurd h (fun hh => Except.noConfusion hh)

/-- The policy/action stage either refuses with exactly one reply that
is connection-not-allowed or network-unreachable, or proceeds to open
exactly one upstream with no reply yet. -/
theorem dispatchUpstream_cases (cfg : Config) (port : String) (u : UpstreamType) :
    (∃ a, dispatchUpstream cfg port u = ([], some a))
    ∨ (∃ r, dispatchUpstream cfg port u = ([r], none)
        ∧ (r = .connectionNotAllowed ∨ r = .networkUnreachable)) := by
  cases u <;> unfold dispatchUpstream <;> split_ifs <;>
    first
      | exact Or.inl ⟨_, rfl⟩
      | exact Or.inr ⟨_, rfl, Or.inl rfl⟩
      | exact Or.inr ⟨_, rfl, Or.inr rfl⟩

/-- C2: for every SOCKS request, the dispatcher either proceeds to open
an upstream connection having sent no reply, or refuses: it sends the
client exactly one reply whose code is 02 (connection not allowed), 03
(network unreachable) or 07 (command not supported), and opens no
upstream connection. -/
theorem socks_refusal_code_and_no_upstream (cfg : Config) (req : SocksRequest) :
    (∃ a, sessionDecision cfg req = ([], some a))
    ∨ (∃ r, sessionDecision cfg req = ([r], none)
        ∧ (r.toByte = 0x02 ∨ r.toByte = 0x03 ∨ r.toByte = 0x07)) := by
  have hcmd : req.cmd = req.cmd := rfl
  unfold sessionDecision
  cases hc : req.cmd with
  | torResolve =>
      split_ifs <;>
        first
          | exact Or.inl ⟨_, rfl⟩
          | exact Or.inr ⟨_, rfl, Or.inr (Or.inr rfl)⟩
  | torResolvePTR =>
      split_ifs <;>
        first
          | exact Or.inl ⟨_, rfl⟩
          | exact Or.inr ⟨_, rfl, Or.inr (Or.inr rfl)⟩
  | connect =>
      unfold pickUpstreamAndDispatch
      cases hiso : applyIsolation cfg req (classifyTarget cfg req.addr) with
      | error r =>
          refine Or.inr ⟨r, rfl, ?_⟩
          rw [applyIsolation_error_code cfg req _ r hiso]
          exact Or.inl rfl
      | ok u =>
          rcases dispatchUpstream_cases cfg req.addr.port u with ⟨a, ha⟩ | ⟨r, hr, hcode⟩
          · exact Or.inl ⟨a, ha⟩
          · refine Or.inr ⟨r, hr, ?_⟩
            rcases hcode with h2 | h3
            · exact Or.inl (by rw [h2]; rfl)
            · exact Or.inr (Or.inl (by rw [h3]; rfl))

/-- Modelled from the spec (the claimed classification order): host
suffix `.onion` gives Tor, else host suffix `.i2p` gives I2P, else
canonical `host:port` equal to the configured I2P management address
gives I2PConsole, else equal to the configured I2P local address gives
I2PLocal, else Internet. -/
def classifyTargetSpec (cfg : Config) (addr : Address) : UpstreamType :=
  if hasSuffix addr.host ".onion" then .tor
  else if hasSuffix addr.host ".i2p" then .i2p
  else if addr.str = cfg.i2p.mgmtAddr then .i2pConsole
  else if addr.str = cfg.i2p.localAddr then .i2pLocal
  else .internet

/-- Modelled from the spec (the claimed auth override): when both auth
fields are present, a username ending in `.onion` forces an
I2P-classified request to Tor and a username ending in `.i2p` forces a
Tor-classified request to I2P; otherwise the classification stands. -/
def overrideSpec (auth : SocksAuth) (u : UpstreamType) : UpstreamType :=
  match auth.uname, auth.passwd with
  | some un, some _ =>
      if u = .i2p ∧ hasSuffix un ".onion" then .tor
      else if u = .tor ∧ hasSuffix un ".i2p" then .i2p
      else u
  | _, _ => u

/-- C3: under the configuration invariant established by `validate`
(with I2P disabled the management and local addresses stay empty) and
for a canonical nonempty target string, the classification of the
dispatcher equals the claimed fixed-order classification computed from
the target alone, and for any target not classified I2PConsole/I2PLocal
the isolation stage returns exactly the claimed auth override of that
classification. -/
theorem socks_classification_follows_spec (cfg : Config) (req : SocksRequest)
    (hvalid : cfg.i2p.enable = false → cfg.i2p.mgmtAddr = "" ∧ cfg.i2p.localAddr = "")
    (hne : req.addr.str ≠ "") :
    classifyTarget cfg req.addr = classifyTargetSpec cfg req.addr
    ∧ (classifyTargetSpec cfg req.addr ≠ .i2pConsole →
        classifyTargetSpec cfg req.addr ≠ .i2pLocal →
        applyIsolation cfg req (classifyTarget cfg req.addr)
          = .ok (overrideSpec req.auth (classifyTargetSpec cfg req.addr))) := by
  have hcls : classifyTarget cfg req.addr = classifyTargetSpec cfg req.addr := by
    cases he : cfg.i2p.enable with
    | false =>
        obtain ⟨hm, hl⟩ := hvalid he
        simp [classifyTarget, classifyTargetSpec, I2PCfg.isManagementAddr,
          I2PCfg.isLocalAddr, he, hm, hl, hne]
    | true =>
        simp only [classifyTarget, classifyTargetSpec, I2PCfg.isManagementAddr,
          I2PCfg.isLocalAddr, he, Bool.true_and, beq_iff_eq]
        by_cases h3 : cfg.i2p.mgmtAddr = req.addr.str
        · simp [h3]
        · by_cases h4 : cfg.i2p.localAddr = req.addr.str
          · simp [h3, Ne.symm h3, h4]
          · simp [h3, Ne.symm h3, h4, Ne.symm h4]
  refine ⟨hcls, ?_⟩
  rw [hcls]
  generalize classifyTargetSpec cfg req.addr = u
  intro hnc hnl
  unfold applyIsolation overrideSpec
  rw [if_neg (not_or.mpr ⟨hnc, hnl⟩)]
  rcases hun : req.auth.uname with _ | un <;>
    rcases hpw : req.auth.passwd with _ | pw <;>
    cases u <;> simp_all

/-- Witness for `socks_classification_follows_spec`: an `.i2p` target
carrying `.onion` isolation credentials, under a validated
configuration with I2P enabled; the override forces the request to
Tor. -/
theorem socks_classification_follows_spec_witness :
    (classifyTarget cfgW
        { host := "eepsite.i2p", port := "443", str := "eepsite.i2p:443" }
      = classifyTargetSpec cfgW
        { host := "eepsite.i2p", port := "443", str := "eepsite.i2p:443" })
    ∧ applyIsolation cfgW
        { cmd := .connect
          addr := { host := "eepsite.i2p", port := "443", str := "eepsite.i2p:443" }
          auth := { uname := some "x.onion", passwd := some "" } }
        (classifyTarget cfgW
          { host := "eepsite.i2p", port := "443", str := "eepsite.i2p:443" })
      = .ok (overrideSpec { uname := some "x.onion", passwd := some "" }
          (classifyTargetSpec cfgW
            { host := "eepsite.i2p", port := "443", str := "eepsite.i2p:443" })) := by
  have h := socks_classification_follows_spec cfgW
    { cmd := .connect
      addr := { host := "eepsite.i2p", port := "443", str := "eepsite.i2p:443" }
      auth := { uname := some "x.onion", passwd := some "" } }
    (by decide) (by decide)
  exact ⟨h.1, h.2 (by decide) (by decide)⟩

end OrCtlFilter
